import Mathlib

/-!
Shallow embedding of `start.py` from the `tangle_deployment_gcp` repository,
together with spec-modelled fragments of the orchestration core that the
bootstrap only constructs (the core itself lives outside the supplied source).
Side-effecting Python code is embedded as functions producing explicit traces
of actions; configuration constants are embedded literally.
-/

/- ### Configuration constants (start.py, region "Configuration", lines 22-46) -/

/-- `database_uri` (start.py line 24). -/
def database_uri : String := "sqlite:///db.sqlite"

/-- `artifacts_root_uri` (start.py line 25). -/
def artifacts_root_uri : String := "gs://<bucket-artifacts>/artifacts"

/-- `logs_root_uri` (start.py line 26). -/
def logs_root_uri : String := "gs://<bucket-logs>/logs"

/-- `kubernetes_namespace` (start.py line 28). -/
def kubernetes_namespace : String := "default"

/-- `kubernetes_service_account_name` (start.py line 29): `None`. -/
def kubernetes_service_account_name : Option String := none

/-- `kubeconfig_path` (start.py line 31): `None`. -/
def kubeconfig_path : Option String := none

/-- `kubeconfig_context` (start.py line 33): `None`. -/
def kubeconfig_context : Option String := none

/-- `authentication_type` (start.py lines 39-41). -/
def authentication_type : String := "dummy_admin"

/-- `sleep_seconds_between_queue_sweeps` (start.py line 44): the Python float
`1.0`, embedded as the rational `1` (durations are modelled as rationals). -/
def sleep_seconds_between_queue_sweeps : ℚ := 1

/- ### Collaborator objects the bootstrap constructs -/

/-- A SQLAlchemy engine, modelled by the database URI it was created from
(`database_ops.create_db_engine_and_migrate_db`, start.py lines 174-176). -/
structure DbEngine where
  uri : String
deriving DecidableEq, Repr

/-- The module-level `db_engine` (start.py lines 174-176). -/
def db_engine : DbEngine := { uri := database_uri }

/-- A SQLAlchemy `sessionmaker`, modelled by the keyword arguments the
bootstrap passes to it (start.py lines 190-192). -/
structure SessionFactory where
  autocommit : Bool
  autoflush : Bool
  bind : DbEngine
deriving DecidableEq, Repr

/-- The storage provider object; the bootstrap constructs exactly one kind
(`google_cloud_storage.GoogleCloudStorageProvider()`, start.py line 115). -/
inductive StorageProvider where
  | googleCloudStorage
deriving DecidableEq, Repr

/-- The module-level `storage_provider` (start.py line 115). -/
def storage_provider : StorageProvider := .googleCloudStorage

/-- `kubernetes_launchers.GoogleKubernetesEngineLauncher`, modelled by the
construction arguments the bootstrap passes (start.py lines 137-141); the
Kubernetes API client itself is an external collaborator. -/
structure GKELauncher where
  namespaceName : String
  service_account_name : Option String
deriving DecidableEq, Repr

/-- The module-level `launcher` (start.py lines 137-141). -/
def launcher : GKELauncher :=
  { namespaceName := kubernetes_namespace
  , service_account_name := kubernetes_service_account_name }

/- ### Orchestrator construction contract -/

/-- The exact set of keyword arguments the bootstrap passes to
`orchestrator_sql.OrchestratorService_Sql(...)` (start.py lines 194-202).
The commented-out `default_task_annotations={}` line in the source is not an
argument and is therefore absent here. -/
structure OrchestratorCtor where
  session_factory : SessionFactory
  ctorLauncher : GKELauncher
  ctorStorageProvider : StorageProvider
  data_root_uri : String
  ctorLogsRootUri : String
  sleepSeconds : ℚ
deriving DecidableEq, Repr

/-- A value passed as a keyword argument at orchestrator construction.  The
`intArg` and `boolArg` shapes exist so that "no integer and no boolean is
passed" is a contentful statement: the bootstrap never uses them. -/
inductive ArgValue where
  | sessionFactoryArg (f : SessionFactory)
  | launcherArg (l : GKELauncher)
  | storageArg (s : StorageProvider)
  | strArg (s : String)
  | durationArg (q : ℚ)
  | intArg (n : ℤ)
  | boolArg (b : Bool)
deriving DecidableEq, Repr

/-- `true` exactly on integer-valued constructor arguments. -/
def ArgValue.isInt : ArgValue → Bool
  | .intArg _ => true
  | _ => false

/-- `true` exactly on boolean-valued constructor arguments. -/
def ArgValue.isBool : ArgValue → Bool
  | .boolArg _ => true
  | _ => false

/-- `true` exactly on duration-valued constructor arguments. -/
def ArgValue.isDuration : ArgValue → Bool
  | .durationArg _ => true
  | _ => false

/-- The keyword-argument view of an orchestrator construction, in source
order (start.py lines 194-202). -/
def orchestratorCtorArgs (c : OrchestratorCtor) : List (String × ArgValue) :=
  [ ("session_factory", .sessionFactoryArg c.session_factory)
  , ("launcher", .launcherArg c.ctorLauncher)
  , ("storage_provider", .storageArg c.ctorStorageProvider)
  , ("data_root_uri", .strArg c.data_root_uri)
  , ("logs_root_uri", .strArg c.ctorLogsRootUri)
  , ("sleep_seconds_between_queue_sweeps", .durationArg c.sleepSeconds) ]

/- ### Responses, exceptions and request handlers -/

/-- The information Python carries about a raised exception: its type name,
its message, and the stack frames of its traceback. -/
structure ExcInfo where
  excType : String
  message : String
  stackFrames : List String
deriving DecidableEq, Repr

/-- The one-line error summary of an exception: the final
`Type: message` line of a formatted traceback. -/
def errorSummary (e : ExcInfo) : String := e.excType ++ ": " ++ e.message

/-- `traceback.format_exception(type(exc), exc, exc.__traceback__)`
(start.py line 243): the full list of stack-frame lines followed by the final
exception line. -/
def format_exception (e : ExcInfo) : List String :=
  e.stackFrames ++ [errorSummary e]

/-- A `fastapi.responses.JSONResponse`, modelled as a status code plus a JSON
object mapping keys to lists of strings. -/
structure JsonResponse where
  status_code : Nat
  content : List (String × List String)
deriving DecidableEq, Repr

/-- The `handle_error` exception handler (start.py lines 241-247): every
unhandled exception becomes a 503 response whose body carries the full
formatted traceback under the key `exception`. -/
def handle_error (e : ExcInfo) : JsonResponse :=
  { status_code := 503
  , content := [("exception", format_exception e)] }

/-- The `/services/ping` health check (start.py lines 260-262): returns the
empty JSON object. -/
def health_check : JsonResponse :=
  { status_code := 200, content := [] }

/- ### Authentication (start.py, region "Authentication configuration") -/

/-- An incoming HTTP request, modelled with the attributes a handler could
inspect; `get_user_details` inspects none of them. -/
structure Request where
  method : String
  path : String
  headers : List (String × String)
deriving DecidableEq, Repr

/-- `api_router.Permissions`. -/
structure Permissions where
  read : Bool
  write : Bool
  admin : Bool
deriving DecidableEq, Repr

/-- `api_router.UserDetails`. -/
structure UserDetails where
  name : String
  permissions : Permissions
deriving DecidableEq, Repr

/-- `ADMIN_USER_NAME` (start.py line 148). -/
def ADMIN_USER_NAME : String := "admin"

/-- The placeholder `get_user_details` defined under the `dummy_admin`
authentication type (start.py lines 154-162): it ignores its request argument
and returns the admin user with full permissions. -/
def get_user_details (_r : Request) : UserDetails :=
  { name := ADMIN_USER_NAME
  , permissions := { read := true, write := true, admin := true } }

/-- Outcome of the authentication-configuration region. -/
inductive AuthResult where
  | okAuth (getter : Request → UserDetails) (defaultOwner : String)
  | errAuth (msg : String)

/-- The `if/elif/else` dispatch on `authentication_type`
(start.py lines 147-167): `dummy_admin` installs `get_user_details` and the
default component-library owner; `google_cloud_iap` raises
`NotImplementedError`; anything else raises `ValueError`. -/
def configure_authentication (t : String) : AuthResult :=
  if t = "dummy_admin" then
    .okAuth get_user_details ADMIN_USER_NAME
  else if t = "google_cloud_iap" then
    .errAuth "NotImplementedError: Google Cloud IAP authentication is not implemented yet."
  else
    .errAuth ("ValueError: Unknown authentication type: " ++ t)

/- ### Bootstrap action traces -/

/-- The target of a `threading.Thread`; the bootstrap creates exactly one
thread, targeting `run_configured_orchestrator` (start.py lines 219-222). -/
inductive ThreadTarget where
  | runConfiguredOrchestratorTarget
deriving DecidableEq, Repr

/-- One observable action of the bootstrap or of code it wires up.  The
`threadJoin` shape exists so that "no join/stop is ever issued" is a
contentful statement: no modelled trace contains it. -/
inductive BootAction where
  | logInfo (msg : String)
  | logWarning (msg : String)
  | constructOrchestrator (c : OrchestratorCtor)
  | runLoopCall
  | threadStart (target : ThreadTarget) (daemonFlag : Bool)
  | threadJoin (target : ThreadTarget)
  | respond (r : JsonResponse)
  | mountStatic (path : String) (dir : String)
deriving DecidableEq, Repr

/-- `run_orchestrator` (start.py lines 181-203): logs, builds a session
factory bound to the given engine, constructs the orchestrator with the six
keyword arguments of the source, and calls `run_loop` on it.  The `launcher`
is the module-level launcher, exactly as in the source. -/
def run_orchestrator (engine : DbEngine) (sp : StorageProvider)
    (dataRootUri logsRootUriArg : String) (sleepSeconds : ℚ) : List BootAction :=
  [ .logInfo "Starting the orchestrator"
  , .constructOrchestrator
      { session_factory := { autocommit := false, autoflush := false, bind := engine }
      , ctorLauncher := launcher
      , ctorStorageProvider := sp
      , data_root_uri := dataRootUri
      , ctorLogsRootUri := logsRootUriArg
      , sleepSeconds := sleepSeconds }
  , .runLoopCall ]

/-- The orchestrator-construction record produced by the configured bootstrap
invocation (start.py lines 206-212). -/
def bootstrapCtor : OrchestratorCtor :=
  { session_factory := { autocommit := false, autoflush := false, bind := db_engine }
  , ctorLauncher := launcher
  , ctorStorageProvider := storage_provider
  , data_root_uri := artifacts_root_uri
  , ctorLogsRootUri := logs_root_uri
  , sleepSeconds := sleep_seconds_between_queue_sweeps }

/-- `run_configured_orchestrator` (start.py lines 206-212): the lambda the
background thread runs, binding every parameter of `run_orchestrator` to the
module-level configuration. -/
def run_configured_orchestrator : List BootAction :=
  run_orchestrator db_engine storage_provider artifacts_root_uri logs_root_uri
    sleep_seconds_between_queue_sweeps

/-- The trace a thread target executes when the thread runs. -/
def threadTargetTrace : ThreadTarget → List BootAction
  | .runConfiguredOrchestratorTarget => run_configured_orchestrator

/-- The startup half of the `lifespan` context manager (start.py lines
217-230): everything before the `yield`.  The flag is the
`GOOGLE_CLOUD_SHELL == "true"` environment test; `port` is 8000. -/
def lifespanStartup (googleCloudShell : Bool) : List BootAction :=
  [ .threadStart .runConfiguredOrchestratorTarget true ]
    ++ (if googleCloudShell then
          [ .logInfo "View app at: https://shell.cloud.google.com/devshell/proxy?port=8000" ]
        else [])

/-- The shutdown half of the `lifespan` context manager: the body after the
`yield` is empty — no join, no stop signal, no cleanup. -/
def lifespanShutdown : List BootAction := []

/-- The request handlers have no orchestrator access: the trace of
`health_check` is a single response. -/
def healthCheckTrace : List BootAction := [ .respond health_check ]

/-- The trace of `handle_error` on an exception: a single response. -/
def handleErrorTrace (e : ExcInfo) : List BootAction := [ .respond (handle_error e) ]

/-- An argument passed to `api_router.setup_routes` (start.py lines 250-256).
The `orchestratorHandleArg` shape exists so that "no orchestrator reference is
handed to the request-routing layer" is contentful: the source passes none. -/
inductive RouterArg where
  | engineArg (e : DbEngine)
  | userDetailsGetterArg
  | launcherForLogStreamingArg (l : GKELauncher)
  | ownerUsernameArg (s : String)
  | orchestratorHandleArg (c : OrchestratorCtor)
deriving DecidableEq, Repr

/-- The arguments the bootstrap passes to `api_router.setup_routes`
(start.py lines 250-256), in source order. -/
def setup_routes_args : List RouterArg :=
  [ .engineArg db_engine
  , .userDetailsGetterArg
  , .launcherForLogStreamingArg launcher
  , .ownerUsernameArg ADMIN_USER_NAME ]

/-- `true` exactly on thread-start actions. -/
def BootAction.isThreadStart : BootAction → Bool
  | .threadStart _ _ => true
  | _ => false

/-- `true` exactly on thread-join actions. -/
def BootAction.isThreadJoin : BootAction → Bool
  | .threadJoin _ => true
  | _ => false

/-- `true` exactly on invocations of the orchestrator loop (either
constructing the orchestrator or calling `run_loop`). -/
def BootAction.isOrchestratorInvocation : BootAction → Bool
  | .constructOrchestrator _ => true
  | .runLoopCall => true
  | _ => false

/-- `true` exactly on the router argument that would hand the routing layer a
reference to the orchestrator. -/
def RouterArg.isOrchestratorHandle : RouterArg → Bool
  | .orchestratorHandleArg _ => true
  | _ => false

/- ### Static-file mounting (start.py lines 265-302) -/

/-- `web_app_search_dirs` (start.py lines 267-275): the seven candidate
directories, as paths relative to the directory holding `start.py`
(`this_dir`), in source order. -/
def web_app_search_dirs : List String :=
  [ "../pipeline-studio-app/build"
  , "../frontend/build"
  , "../frontend_build"
  , "../tangle-ui/dist"
  , "../ui_build"
  , "pipeline-studio-app/build"
  , "ui_build" ]

/-- The actions the loop body performs for one existing candidate directory
(start.py lines 278-299): a log line and three mounts of the same directory. -/
def mountActionsFor (d : String) : List BootAction :=
  [ .logInfo ("Found the Web app static files at " ++ d ++ ". Mounting them.")
  , .mountStatic "/tangle-ui/" d
  , .mountStatic "/pipeline-studio-app/" d
  , .mountStatic "/" d ]

/-- The `for web_app_dir in web_app_search_dirs` loop (start.py lines
277-299), parametrised by the filesystem existence predicate `ex`.  Returns
the action trace and the final value of `found_frontend_build_files`. -/
def mountLoop (ex : String → Bool) : List String → List BootAction × Bool
  | [] => ([], false)
  | d :: rest =>
      let tail := mountLoop ex rest
      if ex d then (mountActionsFor d ++ tail.1, true)
      else (tail.1, tail.2)

/-- The whole static-file-mounting region (start.py lines 276-301): run the
loop over all seven candidates, then warn when none existed.  The region
never raises: missing candidates only produce the warning. -/
def mount_web_app (ex : String → Bool) : List BootAction :=
  let r := mountLoop ex web_app_search_dirs
  r.1 ++ (if r.2 then [] else [ .logWarning "The Web app files were not found. Skipping." ])

/-- Extracts the `(path, directory)` pairs mounted by a trace, in order. -/
def mountsOf (tr : List BootAction) : List (String × String) :=
  tr.filterMap fun a => match a with
    | .mountStatic p d => some (p, d)
    | _ => none

/- ### Kubernetes client setup (start.py lines 118-132) -/

/-- One call made while configuring the Kubernetes client. -/
inductive K8sCall where
  | loadInclusterConfig
  | loadKubeConfig (configFile : Option String) (context : Option String)
  | versionProbe (requestTimeoutSeconds : Nat)
deriving DecidableEq, Repr

/-- Which of the three fallible Kubernetes calls succeed in a given
environment.  `inclusterOk = false` stands for `load_incluster_config`
raising any exception at all (the source catches with a bare `except:`). -/
structure K8sEnv where
  inclusterOk : Bool
  kubeConfigOk : Bool
  probeOk : Bool
deriving DecidableEq, Repr

/-- The Kubernetes-client initialization region (start.py lines 122-132):
try `load_incluster_config`; on any exception fall back to
`load_kube_config(config_file=kubeconfig_path, context=kubeconfig_context)`;
then call `VersionApi(...).get_code(_request_timeout=5)`.  Only the in-cluster
load is guarded: a failure of the fallback load or of the version probe
propagates and aborts module import (`Except.error`). -/
def init_k8s (env : K8sEnv) : List K8sCall × Except String Unit :=
  if env.inclusterOk then
    ( [ .loadInclusterConfig, .versionProbe 5 ]
    , if env.probeOk then .ok () else .error "k8s version probe raised" )
  else if env.kubeConfigOk then
    ( [ .loadInclusterConfig, .loadKubeConfig kubeconfig_path kubeconfig_context
      , .versionProbe 5 ]
    , if env.probeOk then .ok () else .error "k8s version probe raised" )
  else
    ( [ .loadInclusterConfig, .loadKubeConfig kubeconfig_path kubeconfig_context ]
    , .error "load_kube_config raised" )

/-- `true` exactly on the fallback kubeconfig load. -/
def K8sCall.isLoadKubeConfig : K8sCall → Bool
  | .loadKubeConfig _ _ => true
  | _ => false

/- ### Spec-modelled orchestration core (not present under src/) -/

/-- Modelled from the spec: the task status enumeration of the Task/Run data
model (spec section 3); the orchestration core itself is not in the supplied
source. -/
inductive TaskStatus where
  | pending
  | ready
  | dispatched
  | running
  | succeeded
  | failed
  | cancelled
  | skipped
deriving DecidableEq, Repr

/-- Modelled from the spec: the per-task state the dispatch discipline of
spec sections 3, 4.3 and 5 acts on, instrumented with counters for launch
calls, dispatch attempts and handle assignments so the at-most-one-dispatch
property is expressible. -/
structure DispatchState where
  status : TaskStatus
  handle : Option Nat
  retryCount : Nat
  launchCalls : Nat
  dispatchAttempts : Nat
  handleSets : Nat
deriving DecidableEq, Repr

/-- Modelled from the spec: one atomic sweep-cycle transaction touching a
single task (spec section 4.3 steps 3-4 and section 5).  Each sweep step on
a task runs inside an exclusive transaction, so any number of sequential or
overlapping sweep cycles serialize into a sequence of these events. -/
inductive SweepEvent where
  | sweepDispatch (h : Nat)
  | sweepDispatchLaunchError (retryLimit : Nat)
  | pollSucceeded
  | pollFailedRetry
  | pollFailedTerminal
  | cancelRun
deriving DecidableEq, Repr

/-- Modelled from the spec: whether a status is terminal (spec section 4.3
step 1). -/
def TaskStatus.isTerminal : TaskStatus → Bool
  | .succeeded => true
  | .failed => true
  | .cancelled => true
  | .skipped => true
  | _ => false

/-- Modelled from the spec: the effect of one exclusive sweep transaction on
one task (spec section 4.3).  A dispatch claims the task only when it is
READY: it marks it DISPATCHED, calls `launch` exactly once and, on success,
records the returned handle and marks RUNNING — all inside the one
transaction, so the DISPATCHED state is transient here.  On a launch error
the retry count is incremented and the task reverts to READY while under the
retry limit, else becomes FAILED; no handle is recorded.  A sweep that finds
the task not READY does nothing at all (in particular it calls `launch`
zero times).  Polling moves RUNNING to SUCCEEDED/FAILED, or back to READY
on a retry, which is the only point where the handle is cleared. -/
def sweepStep (s : DispatchState) (e : SweepEvent) : DispatchState :=
  match e with
  | .sweepDispatch h =>
      if s.status = .ready then
        { s with
            status := .running
            handle := some h
            launchCalls := s.launchCalls + 1
            dispatchAttempts := s.dispatchAttempts + 1
            handleSets := s.handleSets + 1 }
      else s
  | .sweepDispatchLaunchError retryLimit =>
      if s.status = .ready then
        if s.retryCount < retryLimit then
          { s with
              retryCount := s.retryCount + 1
              launchCalls := s.launchCalls + 1
              dispatchAttempts := s.dispatchAttempts + 1 }
        else
          { s with
              status := .failed
              launchCalls := s.launchCalls + 1
              dispatchAttempts := s.dispatchAttempts + 1 }
      else s
  | .pollSucceeded =>
      if s.status = .running then { s with status := .succeeded } else s
  | .pollFailedRetry =>
      if s.status = .running then
        { s with status := .ready, handle := none, retryCount := s.retryCount + 1 }
      else s
  | .pollFailedTerminal =>
      if s.status = .running then { s with status := .failed } else s
  | .cancelRun =>
      if s.status.isTerminal then s else { s with status := .cancelled }

/-- Modelled from the spec: a task as first discovered by the core — READY
with no handle and zeroed counters. -/
def initialTaskState : DispatchState :=
  { status := .ready, handle := none, retryCount := 0
  , launchCalls := 0, dispatchAttempts := 0, handleSets := 0 }

/-- Modelled from the spec: running an arbitrary serialization of sweep
transactions over one task. -/
def sweepRun (evs : List SweepEvent) (s : DispatchState) : DispatchState :=
  evs.foldl sweepStep s

/- ### Spec-modelled Readiness Evaluator (spec section 4.1) -/

/-- Modelled from the spec: one node of a run's task graph as the Readiness
Evaluator sees it — an identifier, the identifiers of its upstream
dependencies, and its current status. -/
structure EvalTask where
  taskId : Nat
  upstreams : List Nat
  status : TaskStatus
deriving DecidableEq, Repr

/-- Modelled from the spec: the status of task `i` in the task set; an
identifier that names no task is treated as a never-satisfied PENDING
dependency. -/
def statusOf (ts : List EvalTask) (i : Nat) : TaskStatus :=
  match ts.find? (fun t => t.taskId = i) with
  | some t => t.status
  | none => .pending

/-- Modelled from the spec: an upstream dependency is satisfied when it is
SUCCEEDED, or SKIPPED under the skip-on-upstream-failure policy (spec
section 4.1). -/
def upstreamSatisfied (skipPolicy : Bool) (ts : List EvalTask) (i : Nat) : Bool :=
  statusOf ts i = .succeeded || (skipPolicy && statusOf ts i = .skipped)

/-- Modelled from the spec: a task is unsatisfiable when some upstream is
FAILED or CANCELLED (spec sections 3 and 4.1). -/
def someUpstreamFailed (ts : List EvalTask) (t : EvalTask) : Bool :=
  t.upstreams.any fun i => statusOf ts i = .failed || statusOf ts i = .cancelled

/-- Modelled from the spec: the Readiness Evaluator's treatment of a single
task against the current statuses (spec section 4.1): a PENDING task whose
every upstream is satisfied is promoted to READY; a PENDING task with a
FAILED/CANCELLED upstream is moved to SKIPPED when the skip policy is on;
every other task is untouched. -/
def evalTaskStep (skipPolicy : Bool) (ts : List EvalTask) (t : EvalTask) : EvalTask :=
  if t.status = .pending then
    if t.upstreams.all (upstreamSatisfied skipPolicy ts) then
      { t with status := .ready }
    else if skipPolicy && someUpstreamFailed ts t then
      { t with status := .skipped }
    else t
  else t

/-- Modelled from the spec: one simultaneous pass of the Readiness Evaluator
over the whole task set, each task judged against the statuses holding at
the start of the pass. -/
def evalPass (skipPolicy : Bool) (ts : List EvalTask) : List EvalTask :=
  ts.map (evalTaskStep skipPolicy ts)

/-- The number of PENDING tasks in a task set. -/
def pendingCount (ts : List EvalTask) : Nat :=
  ts.countP fun t => t.status = .pending

/-- Modelled from the spec: the Readiness Evaluator (spec section 4.1).  A
single pass is iterated until no further PENDING task changes, so that
skip-propagation cascades (a task SKIPPED by the pass satisfying a
downstream dependency) resolve within one evaluation; the spec requires the
evaluator as a whole to be idempotent.  The pending-task count strictly
drops on every non-trivial pass, so `pendingCount ts` passes always reach
the fixed point. -/
def evaluate_readiness (skipPolicy : Bool) (ts : List EvalTask) : List EvalTask :=
  (evalPass skipPolicy)^[pendingCount ts] ts

/- ### Claim theorems -/

/-- C1: entering the FastAPI lifespan spawns exactly one background thread,
its target is `run_configured_orchestrator`, that target only constructs the
orchestrator and calls `run_loop` (besides one log line), and the
request-serving side has no in-process path into the loop: neither in-source
request handler performs an orchestrator invocation and no orchestrator
reference is handed to the route-setup call. -/
theorem claim_C1_single_orchestrator_thread_no_handler_path (g : Bool) (e : ExcInfo) :
    ((lifespanStartup g).countP BootAction.isThreadStart = 1)
  ∧ ((lifespanStartup g).head? =
      some (.threadStart .runConfiguredOrchestratorTarget true))
  ∧ (threadTargetTrace .runConfiguredOrchestratorTarget =
      [ .logInfo "Starting the orchestrator"
      , .constructOrchestrator bootstrapCtor
      , .runLoopCall ])
  ∧ (healthCheckTrace.all (fun a => !a.isOrchestratorInvocation) = true)
  ∧ ((handleErrorTrace e).all (fun a => !a.isOrchestratorInvocation) = true)
  ∧ (setup_routes_args.all (fun a => !a.isOrchestratorHandle) = true) := by
  refine ⟨?_, ?_, rfl, rfl, rfl, rfl⟩ <;> cases g <;> rfl

/-- C2: every invocation of `run_orchestrator` constructs the orchestrator
with exactly the construction contract of the spec — a session factory bound
to the given engine, the launcher, the storage provider, the artifacts root
URI, the logs root URI, and the sweep interval — and then calls `run_loop`
on it. -/
theorem claim_C2_run_orchestrator_construction_contract (engine : DbEngine)
    (sp : StorageProvider) (dru lru : String) (ssw : ℚ) :
    run_orchestrator engine sp dru lru ssw =
      [ .logInfo "Starting the orchestrator"
      , .constructOrchestrator
          { session_factory := { autocommit := false, autoflush := false, bind := engine }
          , ctorLauncher := launcher
          , ctorStorageProvider := sp
          , data_root_uri := dru
          , ctorLogsRootUri := lru
          , sleepSeconds := ssw }
      , .runLoopCall ] := rfl

/-- C3 counterexample: the bootstrap's orchestrator construction passes no
integer-valued argument (so no retry limit) and no boolean-valued argument
(so no skip-on-upstream-failure policy); of the three configuration items
the claim lists, only the sweep interval is passed at construction. -/
theorem claim_C3_counterexample_no_retry_or_skip_arg :
    ((orchestratorCtorArgs bootstrapCtor).any (fun kv => kv.2.isInt) = false)
  ∧ ((orchestratorCtorArgs bootstrapCtor).any (fun kv => kv.2.isBool) = false) := by
  decide

/-- C3 amended: of the three configuration items, only the sweep interval is
passed into the orchestrator at construction time by the bootstrap: the
construction call carries a duration argument named
`sleep_seconds_between_queue_sweeps` and carries no integer and no boolean
argument at all. -/
theorem claim_C3_amended_only_sweep_interval_passed :
    ((orchestratorCtorArgs bootstrapCtor).any
        (fun kv => kv.1 = "sleep_seconds_between_queue_sweeps" && kv.2.isDuration) = true)
  ∧ ((orchestratorCtorArgs bootstrapCtor).any (fun kv => kv.2.isInt) = false)
  ∧ ((orchestratorCtorArgs bootstrapCtor).any (fun kv => kv.2.isBool) = false) := by
  decide

/-- The spec-side failure-signal bound of C4: a response exposes at most the
recorded error summary when every line of its JSON body equals that
summary. -/
def exposesAtMostSummary (e : ExcInfo) (r : JsonResponse) : Bool :=
  r.content.all fun kv => kv.2.all fun line => line = errorSummary e

/-- A concrete unhandled exception with one stack frame, used to exhibit the
behaviour of `handle_error`. -/
def cexExc : ExcInfo :=
  { excType := "ValueError"
  , message := "boom"
  , stackFrames := ["  File app.py, line 3, in endpoint"] }

/-- C4 counterexample: on a concrete unhandled exception the response built
by `handle_error` carries the stack frame itself, not only the recorded
error summary — exception detail beyond the summary crosses the boundary to
the caller. -/
theorem claim_C4_counterexample_traceback_exposed :
    (exposesAtMostSummary cexExc (handle_error cexExc) = false)
  ∧ ("  File app.py, line 3, in endpoint"
        ∈ ((handle_error cexExc).content.flatMap fun kv => kv.2)) := by
  decide

/-- C4 amended: for every request that raises an unhandled exception, the
failure signal exposed to the caller is a 503 status together with the FULL
formatted traceback (all stack frames followed by the summary line) under
the `exception` key — strictly more than the recorded error summary. -/
theorem claim_C4_amended_full_traceback_returned (e : ExcInfo) :
    (handle_error e).status_code = 503
  ∧ (handle_error e).content = [("exception", e.stackFrames ++ [errorSummary e])] :=
  ⟨rfl, rfl⟩

/-- C8: under the `dummy_admin` authentication type the installed
`get_user_details` is a constant function of the request: every request
yields the admin user with read, write and admin permissions, and any two
requests yield equal results. -/
theorem claim_C8_dummy_admin_constant_identity (r r2 : Request) :
    authentication_type = "dummy_admin"
  ∧ configure_authentication authentication_type = .okAuth get_user_details ADMIN_USER_NAME
  ∧ get_user_details r =
      { name := "admin"
      , permissions := { read := true, write := true, admin := true } }
  ∧ get_user_details r = get_user_details r2 :=
  ⟨rfl, rfl, rfl, rfl⟩

/-- `true` on thread lifecycle operations (start or join). -/
def BootAction.isThreadOp (a : BootAction) : Bool :=
  a.isThreadStart || a.isThreadJoin

/-- The static-file-mounting loop performs no thread operation and no
orchestrator invocation, for any filesystem contents. -/
theorem mountLoop_only_logs_and_mounts (ex : String → Bool) (ds : List String) :
    ((mountLoop ex ds).1.all
      (fun a => !a.isThreadOp && !a.isOrchestratorInvocation)) = true := by
  induction ds with
  | nil => rfl
  | cons d rest ih =>
      cases hd : ex d <;>
        simp_all [mountLoop, hd, mountActionsFor, BootAction.isThreadOp,
          BootAction.isThreadStart, BootAction.isThreadJoin,
          BootAction.isOrchestratorInvocation]

/-- The whole mounting region performs no thread operation and no
orchestrator invocation, for any filesystem contents. -/
theorem mount_web_app_only_logs_and_mounts (ex : String → Bool) :
    ((mount_web_app ex).all
      (fun a => !a.isThreadOp && !a.isOrchestratorInvocation)) = true := by
  have h := mountLoop_only_logs_and_mounts ex web_app_search_dirs
  cases hf : (mountLoop ex web_app_search_dirs).2 <;>
    simp_all [mount_web_app, hf, BootAction.isThreadOp, BootAction.isThreadStart,
      BootAction.isThreadJoin, BootAction.isOrchestratorInvocation]

/-- C5: the orchestrator loop runs on a detached daemon thread with no
shutdown hook and no supervisor: the single thread the lifespan spawns is a
daemon thread; the shutdown half of the lifespan is empty; and no modelled
trace of the process — startup, module-level mounting, the request handlers,
or the orchestrator target itself — ever joins a thread or starts another
one, so nothing stops the loop and nothing restarts the thread if its
target dies. -/
theorem claim_C5_daemon_thread_no_stop_no_restart (g : Bool) (e : ExcInfo)
    (ex : String → Bool) :
    ((lifespanStartup g).all
        (fun a => match a with | .threadStart _ d => d | _ => true) = true)
  ∧ (lifespanShutdown = ([] : List BootAction))
  ∧ ((lifespanStartup g).all (fun a => !a.isThreadJoin) = true)
  ∧ ((healthCheckTrace ++ handleErrorTrace e ++ run_configured_orchestrator).all
        (fun a => !a.isThreadOp) = true)
  ∧ ((mount_web_app ex).all (fun a => !a.isThreadOp) = true) := by
  refine ⟨?_, rfl, ?_, rfl, ?_⟩
  · cases g <;> rfl
  · cases g <;> rfl
  · have h := mount_web_app_only_logs_and_mounts ex
    simp only [List.all_eq_true, Bool.and_eq_true] at h ⊢
    exact fun a ha => (h a ha).1

/-- The `(path, directory)` pairs a single loop iteration mounts. -/
def candidateMounts (d : String) : List (String × String) :=
  [("/tangle-ui/", d), ("/pipeline-studio-app/", d), ("/", d)]

/-- The loop mounts exactly the existing candidates, each at the three fixed
paths, in candidate order — it never stops at the first hit. -/
theorem mountsOf_mountLoop (ex : String → Bool) (ds : List String) :
    mountsOf (mountLoop ex ds).1 = (ds.filter ex).flatMap candidateMounts := by
  induction ds with
  | nil => rfl
  | cons d rest ih =>
      cases hd : ex d <;>
        simp [mountLoop, hd, mountsOf, mountActionsFor, List.filter_cons,
          candidateMounts, List.filterMap_append] at ih ⊢ <;>
        exact ih

/-- When no candidate directory exists the loop mounts nothing and reports
that nothing was found. -/
theorem mountLoop_all_missing (ex : String → Bool) (ds : List String)
    (h : ds.all (fun d => !ex d) = true) :
    mountLoop ex ds = ([], false) := by
  induction ds with
  | nil => rfl
  | cons d rest ih =>
      simp only [List.all_cons, Bool.and_eq_true, Bool.not_eq_eq_eq_not,
        Bool.not_true] at h
      simp [mountLoop, h.1, ih (by simpa using h.2)]

/-- C9: static-file mounting iterates the fixed list of seven candidate
directories without stopping at the first hit: every existing candidate is
mounted at `/tangle-ui/`, `/pipeline-studio-app/` and `/` (so all existing
candidates get all three mounts, in candidate order), and when no candidate
exists the region produces only the logged warning and startup proceeds. -/
theorem claim_C9_all_existing_candidates_mounted (ex : String → Bool) :
    web_app_search_dirs.length = 7
  ∧ mountsOf (mount_web_app ex) = (web_app_search_dirs.filter ex).flatMap candidateMounts
  ∧ (web_app_search_dirs.all (fun d => !ex d) = true →
      mount_web_app ex = [ .logWarning "The Web app files were not found. Skipping." ]) := by
  refine ⟨rfl, ?_, ?_⟩
  · have h := mountsOf_mountLoop ex web_app_search_dirs
    cases hf : (mountLoop ex web_app_search_dirs).2 <;>
      simp_all [mount_web_app, hf, mountsOf, List.filterMap_append]
  · intro h
    simp [mount_web_app, mountLoop_all_missing ex web_app_search_dirs h]

/-- C9 witness: on the empty filesystem the mounting region emits exactly the
warning, and on a filesystem where only `ui_build` exists that candidate is
mounted at the three paths. -/
theorem claim_C9_witness :
    mount_web_app (fun _ => false) =
      [ .logWarning "The Web app files were not found. Skipping." ]
  ∧ mountsOf (mount_web_app (fun d => d = "ui_build")) =
      [("/tangle-ui/", "ui_build"), ("/pipeline-studio-app/", "ui_build"), ("/", "ui_build")] := by
  constructor
  · exact (claim_C9_all_existing_candidates_mounted (fun _ => false)).2.2 (by decide)
  · have h := (claim_C9_all_existing_candidates_mounted (fun d => d = "ui_build")).2.1
    rw [h]
    decide

/-- C10: at import time the bootstrap first tries the in-cluster Kubernetes
configuration; on any failure whatsoever it falls back to
`load_kube_config` with the configured path and context (and never calls
the fallback when the in-cluster load succeeded); every version probe it
issues carries the 5-second request timeout; and import succeeds exactly
when some configuration load succeeded and the version probe succeeded —
failure of the fallback load or of the probe aborts startup. -/
theorem claim_C10_k8s_fallback_and_probe (env : K8sEnv) :
    (env.inclusterOk = false →
      K8sCall.loadKubeConfig kubeconfig_path kubeconfig_context ∈ (init_k8s env).1)
  ∧ (env.inclusterOk = true →
      (init_k8s env).1.all (fun c => !c.isLoadKubeConfig) = true)
  ∧ ((init_k8s env).1.all
      (fun c => match c with | .versionProbe t => t == 5 | _ => true) = true)
  ∧ ((init_k8s env).2 = Except.ok () ↔
      ((env.inclusterOk || env.kubeConfigOk) && env.probeOk) = true) := by
  rcases env with ⟨i, k, p⟩
  cases i <;> cases k <;> cases p <;>
    simp [init_k8s, K8sCall.isLoadKubeConfig]

/-- C10 witness: with the in-cluster load failing and the fallback and probe
succeeding, the fallback call with the configured path and context appears;
with the in-cluster load succeeding, no fallback call appears; and with both
loads failing the import aborts with an error. -/
theorem claim_C10_witness :
    (K8sCall.loadKubeConfig kubeconfig_path kubeconfig_context
        ∈ (init_k8s { inclusterOk := false, kubeConfigOk := true, probeOk := true }).1)
  ∧ ((init_k8s { inclusterOk := true, kubeConfigOk := false, probeOk := true }).1.all
        (fun c => !c.isLoadKubeConfig) = true)
  ∧ ¬((init_k8s { inclusterOk := false, kubeConfigOk := false, probeOk := true }).2
        = Except.ok ()) := by
  refine ⟨?_, ?_, ?_⟩
  · exact (claim_C10_k8s_fallback_and_probe
      { inclusterOk := false, kubeConfigOk := true, probeOk := true }).1 rfl
  · exact (claim_C10_k8s_fallback_and_probe
      { inclusterOk := true, kubeConfigOk := false, probeOk := true }).2.1 rfl
  · intro h
    have := ((claim_C10_k8s_fallback_and_probe
      { inclusterOk := false, kubeConfigOk := false, probeOk := true }).2.2.2).mp h
    simp at this

/-- One sweep transaction keeps the dispatch bookkeeping consistent: launch
calls stay in bijection with dispatch attempts, handles are assigned at most
once per attempt, and a READY task carries no handle. -/
theorem sweepStep_preserves_inv (s : DispatchState) (e : SweepEvent)
    (h1 : s.launchCalls = s.dispatchAttempts)
    (h2 : s.handleSets ≤ s.dispatchAttempts)
    (h3 : s.status = .ready → s.handle = none) :
    (sweepStep s e).launchCalls = (sweepStep s e).dispatchAttempts
  ∧ (sweepStep s e).handleSets ≤ (sweepStep s e).dispatchAttempts
  ∧ ((sweepStep s e).status = .ready → (sweepStep s e).handle = none) := by
  cases e <;> dsimp [sweepStep] <;> repeat' split
  all_goals simp_all
  all_goals omega

/-- `sweepRun` preserves the dispatch bookkeeping invariant. -/
theorem sweepRun_preserves_inv (evs : List SweepEvent) (s : DispatchState)
    (h1 : s.launchCalls = s.dispatchAttempts)
    (h2 : s.handleSets ≤ s.dispatchAttempts)
    (h3 : s.status = .ready → s.handle = none) :
    (sweepRun evs s).launchCalls = (sweepRun evs s).dispatchAttempts
  ∧ (sweepRun evs s).handleSets ≤ (sweepRun evs s).dispatchAttempts
  ∧ ((sweepRun evs s).status = .ready → (sweepRun evs s).handle = none) := by
  induction evs generalizing s with
  | nil => exact ⟨h1, h2, h3⟩
  | cons e rest ih =>
      have h := sweepStep_preserves_inv s e h1 h2 h3
      simpa [sweepRun, List.foldl_cons] using ih (sweepStep s e) h.1 h.2.1 h.2.2

/-- C6 (spec-modelled): at most one dispatch attempt is in flight per task at
any time.  Over any serialization of sweep transactions (the exclusive
per-task transaction of the spec serializes any number of sequential or
overlapping sweep cycles): every launch call corresponds to exactly one
dispatch attempt and vice versa; handles are assigned at most once per
attempt; a sweep finding the task not READY performs no launch and no
mutation at all (so a task already in flight is never dispatched again);
a successful dispatch sets the handle exactly once; and the handle changes
only at a dispatch of a READY task or at the retry rewind, which is the
only point where it is cleared or replaced. -/
theorem claim_C6_single_dispatch_in_flight (evs : List SweepEvent) :
    ((sweepRun evs initialTaskState).launchCalls
        = (sweepRun evs initialTaskState).dispatchAttempts)
  ∧ ((sweepRun evs initialTaskState).handleSets
        ≤ (sweepRun evs initialTaskState).dispatchAttempts)
  ∧ (∀ (s : DispatchState) (h : Nat), s.status ≠ .ready →
        sweepStep s (.sweepDispatch h) = s
      ∧ sweepStep s (.sweepDispatchLaunchError h) = s)
  ∧ (∀ (s : DispatchState) (h : Nat), s.status = .ready →
        (sweepStep s (.sweepDispatch h)).handle = some h
      ∧ (sweepStep s (.sweepDispatch h)).handleSets = s.handleSets + 1
      ∧ (sweepStep s (.sweepDispatch h)).launchCalls = s.launchCalls + 1
      ∧ (sweepStep s (.sweepDispatch h)).dispatchAttempts = s.dispatchAttempts + 1)
  ∧ (∀ (s : DispatchState) (e : SweepEvent), (sweepStep s e).handle ≠ s.handle →
        (∃ h, e = .sweepDispatch h ∧ s.status = .ready)
      ∨ (e = .pollFailedRetry ∧ s.status = .running)) := by
  refine ⟨?_, ?_, ?_, ?_, ?_⟩
  · exact (sweepRun_preserves_inv evs initialTaskState rfl (by simp [initialTaskState])
      (fun _ => rfl)).1
  · exact (sweepRun_preserves_inv evs initialTaskState rfl (by simp [initialTaskState])
      (fun _ => rfl)).2.1
  · intro s h hs
    constructor <;> simp [sweepStep, hs]
  · intro s h hs
    refine ⟨?_, ?_, ?_, ?_⟩ <;> simp [sweepStep, hs]
  · intro s e hchange
    cases e <;> dsimp [sweepStep] at hchange <;> revert hchange <;> repeat' split
    all_goals simp_all

/-- A task mid-flight: dispatched once, running under handle 7. -/
def c6RunningState : DispatchState :=
  { status := .running, handle := some 7, retryCount := 0
  , launchCalls := 1, dispatchAttempts := 1, handleSets := 1 }

/-- C6 witness: on a concrete serialization (dispatch, an overlapping sweep
that re-observes the task, a retry rewind, a re-dispatch, success) launch
calls equal dispatch attempts; a concrete overlapping sweep hitting the task
while RUNNING mutates nothing; a concrete dispatch of the READY task sets
the handle; and the concrete retry rewind is classified as the only legal
handle change. -/
theorem claim_C6_witness :
    ((sweepRun [SweepEvent.sweepDispatch 7, .sweepDispatch 8, .pollFailedRetry,
        .sweepDispatch 9, .pollSucceeded] initialTaskState).launchCalls
      = (sweepRun [SweepEvent.sweepDispatch 7, .sweepDispatch 8, .pollFailedRetry,
        .sweepDispatch 9, .pollSucceeded] initialTaskState).dispatchAttempts)
  ∧ sweepStep c6RunningState (.sweepDispatch 8) = c6RunningState
  ∧ (sweepStep initialTaskState (.sweepDispatch 7)).handle = some 7
  ∧ ((∃ h, SweepEvent.pollFailedRetry = SweepEvent.sweepDispatch h
        ∧ c6RunningState.status = .ready)
      ∨ (SweepEvent.pollFailedRetry = SweepEvent.pollFailedRetry
        ∧ c6RunningState.status = .running)) := by
  refine ⟨?_, ?_, ?_, ?_⟩
  · exact (claim_C6_single_dispatch_in_flight
      [SweepEvent.sweepDispatch 7, .sweepDispatch 8, .pollFailedRetry,
        .sweepDispatch 9, .pollSucceeded]).1
  · exact ((claim_C6_single_dispatch_in_flight []).2.2.1 c6RunningState 8 (by decide)).1
  · exact ((claim_C6_single_dispatch_in_flight []).2.2.2.1 initialTaskState 7 rfl).1
  · exact (claim_C6_single_dispatch_in_flight []).2.2.2.2 c6RunningState
      .pollFailedRetry (by decide)

/-- A single readiness pass either leaves a task untouched or moves it out of
PENDING. -/
theorem evalTaskStep_cases (sp : Bool) (ts : List EvalTask) (t : EvalTask) :
    evalTaskStep sp ts t = t
  ∨ (t.status = .pending ∧ (evalTaskStep sp ts t).status ≠ .pending) := by
  unfold evalTaskStep
  repeat' split
  all_goals simp_all

/-- Mapping a function over a list strictly decreases a count when the
function never creates the counted property and destroys it somewhere. -/
theorem countP_map_lt_of_witness {α : Type} (f : α → α) (q : α → Bool)
    (l : List α) (hmono : ∀ x ∈ l, q (f x) = true → q x = true)
    (x : α) (hxl : x ∈ l) (hqx : q x = true) (hqfx : q (f x) = false) :
    (l.map f).countP q < l.countP q := by
  rw [List.countP_map]
  induction l with
  | nil => cases hxl
  | cons a l ih =>
      rw [List.countP_cons, List.countP_cons]
      rcases List.mem_cons.mp hxl with rfl | hxl2
      · have hle : List.countP (q ∘ f) l ≤ List.countP q l :=
          List.countP_mono_left (fun y hy => hmono y (List.mem_cons_of_mem _ hy))
        simp [Function.comp_apply, hqfx, hqx]
        omega
      · have hlt := ih (fun y hy hq => hmono y (List.mem_cons_of_mem _ hy) hq) hxl2
        have ha : q (f a) = true → q a = true :=
          fun hq => hmono a (List.mem_cons_self a l) hq
        by_cases hqa : q (f a) = true
        · simp [Function.comp_apply, hqa, ha hqa]
          omega
        · simp only [Bool.not_eq_true] at hqa
          by_cases hq2 : q a = true <;> simp [Function.comp_apply, hqa, hq2] <;> omega

/-- A pass over a task set with no PENDING task changes nothing. -/
theorem evalPass_of_no_pending (sp : Bool) (ts : List EvalTask)
    (h : pendingCount ts = 0) : evalPass sp ts = ts := by
  have hall : ∀ t ∈ ts, ¬(t.status = .pending) := by
    intro t ht
    simpa using List.countP_eq_zero.mp h t ht
  refine (List.map_congr_left ?_).trans (List.map_id ts)
  intro t ht
  unfold evalTaskStep
  simp [hall t ht]

/-- A pass that changes anything strictly decreases the number of PENDING
tasks. -/
theorem pendingCount_evalPass_lt (sp : Bool) (ts : List EvalTask)
    (h : evalPass sp ts ≠ ts) :
    pendingCount (evalPass sp ts) < pendingCount ts := by
  have hex : ∃ t ∈ ts, evalTaskStep sp ts t ≠ t := by
    by_contra hall
    push_neg at hall
    exact h ((List.map_congr_left hall).trans (List.map_id ts))
  rcases hex with ⟨t, htl, hne⟩
  rcases evalTaskStep_cases sp ts t with heq | ⟨hp, hnp⟩
  · exact absurd heq hne
  · unfold pendingCount evalPass
    exact countP_map_lt_of_witness (evalTaskStep sp ts) _ ts
      (fun x _ hqx => by
        rcases evalTaskStep_cases sp ts x with heq2 | ⟨_, hnp2⟩
        · rw [heq2] at hqx
          exact hqx
        · exact absurd (of_decide_eq_true hqx) hnp2)
      t htl (decide_eq_true hp) (decide_eq_false hnp)

/-- Iterating the readiness pass as many times as there are PENDING tasks
reaches a fixed point. -/
theorem evalPass_fix (sp : Bool) :
    ∀ (n : Nat) (ts : List EvalTask), pendingCount ts ≤ n →
      evalPass sp ((evalPass sp)^[n] ts) = (evalPass sp)^[n] ts := by
  intro n
  induction n with
  | zero =>
      intro ts h
      simpa using evalPass_of_no_pending sp ts (Nat.le_zero.mp h)
  | succ n ih =>
      intro ts h
      by_cases hfix : evalPass sp ts = ts
      · rw [Function.iterate_fixed hfix]
        exact hfix
      · rw [Function.iterate_succ_apply]
        exact ih (evalPass sp ts)
          (by have := pendingCount_evalPass_lt sp ts hfix; omega)

/-- C7 (spec-modelled): the Readiness Evaluator is idempotent.  With no task
status changed between the two evaluations (the second evaluation receives
exactly what the first produced), re-evaluating produces no additional
status transitions: the second evaluation returns its input unchanged, for
either value of the skip-on-upstream-failure policy and any task set. -/
theorem claim_C7_readiness_evaluator_idempotent (sp : Bool) (ts : List EvalTask) :
    evaluate_readiness sp (evaluate_readiness sp ts) = evaluate_readiness sp ts := by
  unfold evaluate_readiness
  exact Function.iterate_fixed (evalPass_fix sp (pendingCount ts) ts le_rfl) _
